import Mathlib

/-!
Shallow embedding of `src/main.py`: a FastAPI inference service for the
Palmer Penguins dataset.  The service loads serialized pipelines from a
`models/` directory, keeps a registry of available models, and exposes
endpoints to switch the active model and run predictions.

Python globals (`ACTIVE_MODEL_NAME`, `ACTIVE_MODEL_PIPE`, `REGISTRY`)
become a `ServerState` record threaded explicitly.  Python exceptions
(`HTTPException`, `RuntimeError`, attribute errors on `None`) become an
`ApiError` inductive; each stateful operation returns the result paired
with the post-state, so a raised exception carries exactly the mutations
performed before the raise point, as in Python.
-/

/-- A Python value as stored in the dict produced by `features.dict()`:
a string, a float (modelled as `Rat`), an int, or `None`. -/
inductive PyValue where
  | vStr : String → PyValue
  | vNum : Rat → PyValue
  | vInt : Int → PyValue
  | vNone : PyValue
deriving DecidableEq, Repr

/-- A pandas DataFrame as used here: a list of rows, each row a list of
(column name, value) pairs, mirroring `pd.DataFrame([features.dict()])`. -/
abbrev DataFrame := List (List (String × PyValue))

/-- An opaque trained pipeline: `joblib`-loaded object exposing `predict`,
which maps a DataFrame to a list of labels (one per row). -/
structure Pipeline where
  predictFn : DataFrame → List String

/-- Errors raised by the Python code: `HTTPException(status_code, detail)`,
`RuntimeError(msg)`, and the `AttributeError` Python raises when a method
is called on `None` (e.g. `REGISTRY.get` before startup). -/
inductive ApiError where
  | httpException : Nat → String → ApiError
  | runtimeError : String → ApiError
  | attributeError : String → ApiError

/-- The parsed content of `registry.json` (a JSON object): `dict.get`
on a possibly missing key returns `None`, hence the `Option` fields. -/
structure RegistryDoc where
  default_model : Option String
  available_models : Option (List String)

/-- The filesystem the service reads: the content of `models/registry.json`
if that file exists, and for each model name the pipeline stored at
`models/{name}.joblib` if that file exists. -/
structure FileSystem where
  registryJson : Option RegistryDoc
  models : String → Option Pipeline

/-- The process-wide mutable globals of `main.py`:
`ACTIVE_MODEL_NAME`, `ACTIVE_MODEL_PIPE`, `REGISTRY`, all initially `None`. -/
structure ServerState where
  ACTIVE_MODEL_NAME : Option String
  ACTIVE_MODEL_PIPE : Option Pipeline
  REGISTRY : Option RegistryDoc

/-- The state at module import time: all three globals are `None`. -/
def initialState : ServerState :=
  { ACTIVE_MODEL_NAME := none, ACTIVE_MODEL_PIPE := none, REGISTRY := none }

/-- Pydantic request model `PenguinFeatures`: one required categorical
field, one required numeric field, several optional fields. -/
structure PenguinFeatures where
  island : String
  bill_length_mm : Option Rat
  bill_depth_mm : Option Rat
  flipper_length_mm : Option Rat
  body_mass_g : Option Rat
  sex : Option String
  year : Int

/-- Pydantic request model `SelectModelRequest`. -/
structure SelectModelRequest where
  model_name : String

/-- `Optional[float]` field rendered as a Python value (`None` or float). -/
def optNum : Option Rat → PyValue
  | none => PyValue.vNone
  | some x => PyValue.vNum x

/-- `Optional[str]` field rendered as a Python value (`None` or string). -/
def optStr : Option String → PyValue
  | none => PyValue.vNone
  | some s => PyValue.vStr s

/-- `features.dict()`: the pydantic model as an ordered dict, keys being
the declared field names in declaration order. -/
def PenguinFeatures.dict (f : PenguinFeatures) : List (String × PyValue) :=
  [("island", PyValue.vStr f.island),
   ("bill_length_mm", optNum f.bill_length_mm),
   ("bill_depth_mm", optNum f.bill_depth_mm),
   ("flipper_length_mm", optNum f.flipper_length_mm),
   ("body_mass_g", optNum f.body_mass_g),
   ("sex", optStr f.sex),
   ("year", PyValue.vInt f.year)]

/-- `load_registry()`: raises `RuntimeError` if `REGISTRY_PATH` does not
exist, otherwise returns the parsed JSON.  No field validation here. -/
def load_registry (fs : FileSystem) : Except ApiError RegistryDoc :=
  match fs.registryJson with
  | none => Except.error (ApiError.runtimeError "registry.json no existe en /models")
  | some doc => Except.ok doc

/-- `load_model(model_name)`: raises `HTTPException(404)` if
`models/{model_name}.joblib` does not exist, else deserializes it. -/
def load_model (fs : FileSystem) (model_name : String) : Except ApiError Pipeline :=
  match fs.models model_name with
  | none =>
      Except.error (ApiError.httpException 404 ("Modelo no encontrado: " ++ model_name))
  | some pipe => Except.ok pipe

/-- `set_active_model(model_name)`: evaluates `load_model` first; only if
it returns does it assign `ACTIVE_MODEL_PIPE` and then `ACTIVE_MODEL_NAME`
(no raise point between the two assignments).  On a load failure the
exception propagates and neither global is touched. -/
def set_active_model (fs : FileSystem) (model_name : String) (st : ServerState) :
    Except ApiError Unit × ServerState :=
  match load_model fs model_name with
  | Except.error e => (Except.error e, st)
  | Except.ok pipe =>
      (Except.ok (),
       { st with ACTIVE_MODEL_PIPE := some pipe, ACTIVE_MODEL_NAME := some model_name })

/-- `startup_event()`: assigns `REGISTRY = load_registry()`, reads
`default_model` with `dict.get`, raises `RuntimeError` if it is `None`
(after `REGISTRY` has already been assigned), else calls
`set_active_model(default_model)`.  No membership check of the default
against `available_models`. -/
def startup_event (fs : FileSystem) (st : ServerState) :
    Except ApiError Unit × ServerState :=
  match load_registry fs with
  | Except.error e => (Except.error e, st)
  | Except.ok reg =>
      let st1 := { st with REGISTRY := some reg }
      match reg.default_model with
      | none =>
          (Except.error (ApiError.runtimeError "registry.json no tiene 'default_model'"), st1)
      | some default_model => set_active_model fs default_model st1

/-- Response of `GET /`. -/
structure HomeResponse where
  message : String
  active_model : Option String

/-- `GET /` endpoint: reads `ACTIVE_MODEL_NAME`, mutates nothing. -/
def home (st : ServerState) : Except ApiError HomeResponse × ServerState :=
  (Except.ok { message := "API Penguins funcionando", active_model := st.ACTIVE_MODEL_NAME }, st)

/-- Response of `GET /models`. -/
structure ListModelsResponse where
  default_model : Option String
  available_models : List String
  active_model : Option String

/-- `GET /models` endpoint: `REGISTRY.get("default_model")` and
`REGISTRY.get("available_models", [])`; raises `AttributeError` if
`REGISTRY` is still `None` (startup never ran). -/
def list_models (st : ServerState) : Except ApiError ListModelsResponse × ServerState :=
  match st.REGISTRY with
  | none =>
      (Except.error (ApiError.attributeError "NoneType object has no attribute get"), st)
  | some reg =>
      (Except.ok
        { default_model := reg.default_model,
          available_models := reg.available_models.getD [],
          active_model := st.ACTIVE_MODEL_NAME }, st)

/-- Response of `POST /select_model` on success. -/
structure SelectModelResponse where
  message : String
  active_model : Option String

/-- `POST /select_model` endpoint: reads
`available = REGISTRY.get("available_models", [])`; raises
`HTTPException(404)` when the requested name is not in the list, else
calls `set_active_model` and reports the new active name. -/
def select_model (fs : FileSystem) (req : SelectModelRequest) (st : ServerState) :
    Except ApiError SelectModelResponse × ServerState :=
  match st.REGISTRY with
  | none =>
      (Except.error (ApiError.attributeError "NoneType object has no attribute get"), st)
  | some reg =>
      let available := reg.available_models.getD []
      if req.model_name ∈ available then
        match set_active_model fs req.model_name st with
        | (Except.error e, st') => (Except.error e, st')
        | (Except.ok _, st') =>
            (Except.ok
              { message := "Modelo activo actualizado",
                active_model := st'.ACTIVE_MODEL_NAME }, st')
      else
        (Except.error
          (ApiError.httpException 404 ("Modelo no disponible: " ++ req.model_name)), st)

/-- Response of `POST /predict` on success. -/
structure PredictResponse where
  prediction : String
  model_used : Option String

/-- `POST /predict` endpoint: raises `HTTPException(500)` if
`ACTIVE_MODEL_PIPE` is `None`; otherwise builds the one-row DataFrame
`pd.DataFrame([features.dict()])`, takes element `[0]` of the pipeline's
predict result (an `IndexError`-style failure if that result is empty),
and pairs it with `ACTIVE_MODEL_NAME`.  Mutates nothing. -/
def predict (features : PenguinFeatures) (st : ServerState) :
    Except ApiError PredictResponse × ServerState :=
  match st.ACTIVE_MODEL_PIPE with
  | none => (Except.error (ApiError.httpException 500 "Modelo no cargado"), st)
  | some pipe =>
      let df : DataFrame := [features.dict]
      match pipe.predictFn df with
      | [] => (Except.error (ApiError.runtimeError "IndexError: index 0 is out of bounds"), st)
      | pred :: _ =>
          (Except.ok { prediction := pred, model_used := st.ACTIVE_MODEL_NAME }, st)

/-- One observable transition of the service: a startup run, a
`select_model` request, or a `predict` request, successful or not. -/
inductive Step : ServerState → ServerState → Prop where
  | startup (fs : FileSystem) (st : ServerState) : Step st (startup_event fs st).2
  | select (fs : FileSystem) (req : SelectModelRequest) (st : ServerState) :
      Step st (select_model fs req st).2
  | infer (features : PenguinFeatures) (st : ServerState) :
      Step st (predict features st).2

/-- States reachable from the initial (all-`None`) state by any sequence
of startup, select and predict operations. -/
inductive Reachable : ServerState → Prop where
  | init : Reachable initialState
  | step {st st' : ServerState} : Reachable st → Step st st' → Reachable st'

/-! ## Helper lemmas about post-states -/

/-- `predict` never mutates the process-wide state. -/
theorem predict_preserves_state (features : PenguinFeatures) (st : ServerState) :
    (predict features st).2 = st := by
  cases hP : st.ACTIVE_MODEL_PIPE with
  | none => simp [predict, hP]
  | some pipe => cases hpr : pipe.predictFn [features.dict] <;> simp [predict, hP, hpr]

/-- `set_active_model` either raises and leaves the state intact, or stores
the loaded pipeline together with its name. -/
theorem set_active_model_cases (fs : FileSystem) (n : String) (st : ServerState) :
    (set_active_model fs n st).2 = st ∨
    ∃ pipe, fs.models n = some pipe ∧
      (set_active_model fs n st).2 =
        { st with ACTIVE_MODEL_PIPE := some pipe, ACTIVE_MODEL_NAME := some n } := by
  unfold set_active_model load_model
  cases h : fs.models n with
  | none => exact Or.inl rfl
  | some pipe => exact Or.inr ⟨pipe, rfl, rfl⟩

/-- `set_active_model` never touches the `REGISTRY` global. -/
theorem set_active_model_registry (fs : FileSystem) (n : String) (st : ServerState) :
    ((set_active_model fs n st).2).REGISTRY = st.REGISTRY := by
  unfold set_active_model load_model
  cases fs.models n <;> rfl

/-- The post-state of `select_model` is the pre-state or the post-state of
the inner `set_active_model` call. -/
theorem select_model_cases (fs : FileSystem) (req : SelectModelRequest) (st : ServerState) :
    (select_model fs req st).2 = st ∨
    (select_model fs req st).2 = (set_active_model fs req.model_name st).2 := by
  cases hR : st.REGISTRY with
  | none => simp [select_model, hR]
  | some reg =>
    by_cases hmem : req.model_name ∈ reg.available_models.getD []
    · right
      cases h : set_active_model fs req.model_name st with
      | mk r st' => cases r <;> simp [select_model, hR, hmem, h]
    · simp [select_model, hR, hmem]

/-- The name/pipeline synchronization is preserved by `set_active_model`. -/
theorem set_active_model_sync (fs : FileSystem) (n : String) (st : ServerState)
    (h : st.ACTIVE_MODEL_NAME = none ↔ st.ACTIVE_MODEL_PIPE = none) :
    ((set_active_model fs n st).2).ACTIVE_MODEL_NAME = none ↔
    ((set_active_model fs n st).2).ACTIVE_MODEL_PIPE = none := by
  rcases set_active_model_cases fs n st with heq | ⟨pipe, _, heq⟩ <;> rw [heq]
  · exact h
  · simp

/-! ## Concrete objects for witnesses and counterexamples -/

/-- A concrete pipeline that labels every row "Adelie". -/
def pipeRF : Pipeline := ⟨fun _ => ["Adelie"]⟩

/-- A concrete pipeline that labels every row "Chinstrap". -/
def pipeSVM : Pipeline := ⟨fun _ => ["Chinstrap"]⟩

/-- A concrete registry: rf is the default, rf and svm are available. -/
def regW : RegistryDoc := { default_model := some "rf", available_models := some ["rf", "svm"] }

/-- A filesystem holding the registry and only the rf artifact
(the svm artifact is missing). -/
def fsOnlyRF : FileSystem :=
  { registryJson := some regW,
    models := fun n => if n = "rf" then some pipeRF else none }

/-- A filesystem holding the registry and both artifacts. -/
def fsBoth : FileSystem :=
  { registryJson := some regW,
    models := fun n =>
      if n = "rf" then some pipeRF else if n = "svm" then some pipeSVM else none }

/-- A post-startup state: rf active, registry loaded. -/
def stRF : ServerState :=
  { ACTIVE_MODEL_NAME := some "rf", ACTIVE_MODEL_PIPE := some pipeRF, REGISTRY := some regW }

/-- Concrete feature record: `{"island": "Biscoe", "year": 2008}`, all
optional fields omitted. -/
def featW : PenguinFeatures :=
  { island := "Biscoe", bill_length_mm := none, bill_depth_mm := none,
    flipper_length_mm := none, body_mass_g := none, sex := none, year := 2008 }

/-! ## Claim theorems -/

/-- C1: for any name in the registry's `available_models` whose backing
artifact file is missing, `select_model` raises the 404 load failure and
leaves the whole state — in particular both `ACTIVE_MODEL_NAME` and
`ACTIVE_MODEL_PIPE` — exactly as it was: no partial switch. -/
theorem C1_missing_artifact_no_partial_switch
    (fs : FileSystem) (reg : RegistryDoc) (req : SelectModelRequest) (st : ServerState)
    (hreg : st.REGISTRY = some reg)
    (hmem : req.model_name ∈ reg.available_models.getD [])
    (hfile : fs.models req.model_name = none) :
    (select_model fs req st).1 =
      Except.error (ApiError.httpException 404 ("Modelo no encontrado: " ++ req.model_name)) ∧
    (select_model fs req st).2 = st ∧
    ((select_model fs req st).2).ACTIVE_MODEL_NAME = st.ACTIVE_MODEL_NAME ∧
    ((select_model fs req st).2).ACTIVE_MODEL_PIPE = st.ACTIVE_MODEL_PIPE := by
  have h2 : (select_model fs req st).2 = st := by
    simp [select_model, hreg, hmem, set_active_model, load_model, hfile]
  refine ⟨?_, h2, by rw [h2], by rw [h2]⟩
  simp [select_model, hreg, hmem, set_active_model, load_model, hfile]

/-- C1 witness: requesting "svm" (listed in the registry) against a
filesystem that only holds the rf artifact leaves the state unchanged. -/
theorem C1_witness :
    (select_model fsOnlyRF ⟨"svm"⟩ stRF).1 =
      Except.error (ApiError.httpException 404 ("Modelo no encontrado: " ++ "svm")) ∧
    (select_model fsOnlyRF ⟨"svm"⟩ stRF).2 = stRF :=
  ⟨(C1_missing_artifact_no_partial_switch fsOnlyRF regW ⟨"svm"⟩ stRF rfl (by decide) rfl).1,
   (C1_missing_artifact_no_partial_switch fsOnlyRF regW ⟨"svm"⟩ stRF rfl (by decide) rfl).2.1⟩

/-- C2: for any name not in `available_models`, `select_model` fails with
a 404 carrying a detail string, leaves the state unchanged, and attempts
no artifact load — the outcome does not depend on the filesystem. -/
theorem C2_unknown_name_404
    (fs : FileSystem) (reg : RegistryDoc) (req : SelectModelRequest) (st : ServerState)
    (hreg : st.REGISTRY = some reg)
    (hmem : req.model_name ∉ reg.available_models.getD []) :
    (select_model fs req st).1 =
      Except.error (ApiError.httpException 404 ("Modelo no disponible: " ++ req.model_name)) ∧
    (select_model fs req st).2 = st ∧
    ∀ fs' : FileSystem, select_model fs' req st = select_model fs req st := by
  refine ⟨?_, ?_, ?_⟩
  · simp [select_model, hreg, hmem]
  · simp [select_model, hreg, hmem]
  · intro fs'
    simp [select_model, hreg, hmem]

/-- C2 witness: requesting the unlisted name "xgb" against the rf state. -/
theorem C2_witness :
    (select_model fsBoth ⟨"xgb"⟩ stRF).1 =
      Except.error (ApiError.httpException 404 ("Modelo no disponible: " ++ "xgb")) ∧
    (select_model fsBoth ⟨"xgb"⟩ stRF).2 = stRF :=
  ⟨(C2_unknown_name_404 fsBoth regW ⟨"xgb"⟩ stRF rfl (by decide)).1,
   (C2_unknown_name_404 fsBoth regW ⟨"xgb"⟩ stRF rfl (by decide)).2.1⟩

/-- C5: when no active pipeline is present, `predict` fails with a 500
(server error) carrying a detail string, without attempting inference,
and leaves the state unchanged. -/
theorem C5_not_ready_500
    (features : PenguinFeatures) (st : ServerState)
    (h : st.ACTIVE_MODEL_PIPE = none) :
    (predict features st).1 =
      Except.error (ApiError.httpException 500 "Modelo no cargado") ∧
    (predict features st).2 = st := by
  constructor
  · simp [predict, h]
  · exact predict_preserves_state features st

/-- C5 witness: predicting in the initial (startup-failed) state. -/
theorem C5_witness :
    (predict featW initialState).1 =
      Except.error (ApiError.httpException 500 "Modelo no cargado") ∧
    (predict featW initialState).2 = initialState :=
  C5_not_ready_500 featW initialState rfl

/-- C6: with an active pipeline present, `predict` builds the single-row
DataFrame `[features.dict()]` whose column names are exactly the declared
field names, answers with the first element of the pipeline's predict
result on that row, and reports the currently active model name. -/
theorem C6_predict_happy_path
    (features : PenguinFeatures) (st : ServerState) (pipe : Pipeline)
    (p : String) (rest : List String)
    (hpipe : st.ACTIVE_MODEL_PIPE = some pipe)
    (hpred : pipe.predictFn [features.dict] = p :: rest) :
    (predict features st).1 =
      Except.ok { prediction := p, model_used := st.ACTIVE_MODEL_NAME } ∧
    (features.dict).map Prod.fst =
      ["island", "bill_length_mm", "bill_depth_mm", "flipper_length_mm",
       "body_mass_g", "sex", "year"] := by
  constructor
  · simp [predict, hpipe, hpred]
  · simp [PenguinFeatures.dict]

/-- C6 witness: the concrete rf pipeline labels the concrete Biscoe/2008
record "Adelie" and the response names the active model. -/
theorem C6_witness :
    (predict featW stRF).1 =
      Except.ok { prediction := "Adelie", model_used := some "rf" } :=
  (C6_predict_happy_path featW stRF pipeRF "Adelie" [] rfl rfl).1

/-- C7: switching A, then B, then A again (all loads succeeding) leaves
the same active model name as a single switch to A. -/
theorem C7_switch_idempotent
    (fs : FileSystem) (st : ServerState) (A B : String) (pA pB : Pipeline)
    (hA : fs.models A = some pA) (hB : fs.models B = some pB) :
    ((set_active_model fs A
        ((set_active_model fs B ((set_active_model fs A st).2)).2)).2).ACTIVE_MODEL_NAME
      = ((set_active_model fs A st).2).ACTIVE_MODEL_NAME := by
  simp [set_active_model, load_model, hA, hB]

/-- C7 witness: rf, svm, rf against the two-artifact filesystem. -/
theorem C7_witness :
    ((set_active_model fsBoth "rf"
        ((set_active_model fsBoth "svm"
          ((set_active_model fsBoth "rf" initialState).2)).2)).2).ACTIVE_MODEL_NAME
      = ((set_active_model fsBoth "rf" initialState).2).ACTIVE_MODEL_NAME :=
  C7_switch_idempotent fsBoth initialState "rf" "svm" pipeRF pipeSVM rfl rfl

/-- C8: when `load_registry` returns a registry whose default model's
artifact loads, `set_active_model(default_model)` — and hence the whole
`startup_event` — ends with the active name equal to the default. -/
theorem C8_startup_activates_default
    (fs : FileSystem) (reg : RegistryDoc) (dm : String) (pipe : Pipeline) (st : ServerState)
    (hreg : load_registry fs = Except.ok reg)
    (hdm : reg.default_model = some dm)
    (hpipe : fs.models dm = some pipe) :
    ((set_active_model fs dm st).2).ACTIVE_MODEL_NAME = some dm ∧
    (startup_event fs st).1 = Except.ok () ∧
    ((startup_event fs st).2).ACTIVE_MODEL_NAME = some dm := by
  refine ⟨?_, ?_, ?_⟩ <;>
    simp [startup_event, set_active_model, load_model, hreg, hdm, hpipe]

/-- C8 witness: startup against the two-artifact filesystem activates the
default model "rf". -/
theorem C8_witness :
    ((startup_event fsBoth initialState).2).ACTIVE_MODEL_NAME = some "rf" :=
  (C8_startup_activates_default fsBoth regW "rf" pipeRF initialState rfl rfl rfl).2.2

/-- A pipeline for the unlisted "ghost" model. -/
def pipeGhost : Pipeline := ⟨fun _ => ["Gentoo"]⟩

/-- A registry whose default model is not among its `available_models`. -/
def regGhost : RegistryDoc :=
  { default_model := some "ghost", available_models := some ["rf"] }

/-- A filesystem holding the ghost registry and both artifacts. -/
def fsGhost : FileSystem :=
  { registryJson := some regGhost,
    models := fun n =>
      if n = "ghost" then some pipeGhost else if n = "rf" then some pipeRF else none }

/-- C3 counterexample: `startup_event` activates the default model without
checking membership, so a reachable state (reached by a successful
startup) has an active name outside `available_models`: the invariant
fails at the initial activation. -/
theorem C3_counterexample :
    (startup_event fsGhost initialState).1 = Except.ok () ∧
    ((startup_event fsGhost initialState).2).ACTIVE_MODEL_NAME = some "ghost" ∧
    ((startup_event fsGhost initialState).2).REGISTRY = some regGhost ∧
    Reachable (startup_event fsGhost initialState).2 ∧
    "ghost" ∉ regGhost.available_models.getD [] := by
  refine ⟨rfl, rfl, rfl, ?_, by decide⟩
  exact Reachable.step Reachable.init (Step.startup fsGhost initialState)

/-- C3 (amended): every activation performed through the model-switch
endpoint satisfies the invariant — when `select_model` succeeds, the new
active name is the requested one and is a member of the loaded registry's
`available_models`.  The startup activation of the default model is not
validated against `available_models` (see the counterexample), so the
invariant is only guaranteed for switch-endpoint activations. -/
theorem C3_select_model_membership
    (fs : FileSystem) (req : SelectModelRequest) (st : ServerState)
    (resp : SelectModelResponse)
    (hok : (select_model fs req st).1 = Except.ok resp) :
    ∃ reg, st.REGISTRY = some reg ∧
      req.model_name ∈ reg.available_models.getD [] ∧
      ((select_model fs req st).2).ACTIVE_MODEL_NAME = some req.model_name := by
  cases hR : st.REGISTRY with
  | none => simp [select_model, hR] at hok
  | some reg =>
    by_cases hmem : req.model_name ∈ reg.available_models.getD []
    · refine ⟨reg, rfl, hmem, ?_⟩
      cases hM : fs.models req.model_name with
      | none => simp [select_model, hR, hmem, set_active_model, load_model, hM] at hok
      | some pipe => simp [select_model, hR, hmem, set_active_model, load_model, hM]
    · simp [select_model, hR, hmem] at hok

/-- C3 witness: the successful switch to "svm" lands on a member name. -/
theorem C3_witness :
    ∃ reg, stRF.REGISTRY = some reg ∧
      "svm" ∈ reg.available_models.getD [] ∧
      ((select_model fsBoth ⟨"svm"⟩ stRF).2).ACTIVE_MODEL_NAME = some "svm" :=
  C3_select_model_membership fsBoth ⟨"svm"⟩ stRF
    { message := "Modelo activo actualizado", active_model := some "svm" } rfl

/-- A filesystem with no registry descriptor at all. -/
def fsNoRegistry : FileSystem := { registryJson := none, models := fun _ => none }

/-- A registry descriptor lacking the `default_model` key. -/
def regNoDefault : RegistryDoc :=
  { default_model := none, available_models := some ["rf"] }

/-- A filesystem whose descriptor exists but lacks `default_model`. -/
def fsNoDefault : FileSystem :=
  { registryJson := some regNoDefault,
    models := fun n => if n = "rf" then some pipeRF else none }

/-- C4 counterexample: with a descriptor that exists but lacks
`default_model`, `load_registry` returns successfully — the configuration
error for the missing field is not raised by `load_registry` itself,
contrary to the claim. -/
theorem C4_counterexample :
    load_registry fsNoDefault = Except.ok regNoDefault ∧
    regNoDefault.default_model = none :=
  ⟨rfl, rfl⟩

/-- C4 (amended): `load_registry` itself raises the configuration error
only when the descriptor file is missing; when the descriptor exists but
lacks `default_model`, `load_registry` returns it successfully and the
configuration error is raised afterwards by `startup_event`. -/
theorem C4_registry_error_split (fs : FileSystem) (st : ServerState) :
    (fs.registryJson = none →
      load_registry fs =
        Except.error (ApiError.runtimeError "registry.json no existe en /models")) ∧
    (∀ reg : RegistryDoc, fs.registryJson = some reg → reg.default_model = none →
      load_registry fs = Except.ok reg ∧
      (startup_event fs st).1 =
        Except.error (ApiError.runtimeError "registry.json no tiene 'default_model'")) := by
  constructor
  · intro h
    simp [load_registry, h]
  · intro reg hreg hdm
    constructor
    · simp [load_registry, hreg]
    · simp [startup_event, load_registry, hreg, hdm]

/-- C4 witness: both configuration-error paths at concrete filesystems. -/
theorem C4_witness :
    load_registry fsNoRegistry =
      Except.error (ApiError.runtimeError "registry.json no existe en /models") ∧
    (startup_event fsNoDefault initialState).1 =
      Except.error (ApiError.runtimeError "registry.json no tiene 'default_model'") :=
  ⟨(C4_registry_error_split fsNoRegistry initialState).1 rfl,
   ((C4_registry_error_split fsNoDefault initialState).2 regNoDefault rfl rfl).2⟩

/-- Every single transition of the service preserves the
name/pipeline synchronization. -/
theorem step_preserves_sync {s s' : ServerState} (hs : Step s s')
    (h : s.ACTIVE_MODEL_NAME = none ↔ s.ACTIVE_MODEL_PIPE = none) :
    s'.ACTIVE_MODEL_NAME = none ↔ s'.ACTIVE_MODEL_PIPE = none := by
  cases hs with
  | startup fs st0 =>
    cases hlr : load_registry fs with
    | error e => simpa [startup_event, hlr] using h
    | ok reg =>
      cases hdm : reg.default_model with
      | none => simpa [startup_event, hlr, hdm] using h
      | some dm =>
        have hs1 : ({ s with REGISTRY := some reg } :
            ServerState).ACTIVE_MODEL_NAME = none ↔
            ({ s with REGISTRY := some reg } :
            ServerState).ACTIVE_MODEL_PIPE = none := h
        have h2 := set_active_model_sync fs dm { s with REGISTRY := some reg } hs1
        simpa [startup_event, hlr, hdm] using h2
  | select fs req st0 =>
    rcases select_model_cases fs req s with heq | heq <;> rw [heq]
    · exact h
    · exact set_active_model_sync fs req.model_name s h
  | infer features st0 =>
    rw [predict_preserves_state]
    exact h

/-- C9: both globals start as `None`, every reachable state keeps
`ACTIVE_MODEL_NAME` and `ACTIVE_MODEL_PIPE` either both `None` or both
set, and whenever `predict` actually produces a prediction its
`model_used` field is not null. -/
theorem C9_name_pipe_in_sync (st : ServerState) (h : Reachable st) :
    (st.ACTIVE_MODEL_NAME = none ↔ st.ACTIVE_MODEL_PIPE = none) ∧
    (∀ (features : PenguinFeatures) (resp : PredictResponse),
      (predict features st).1 = Except.ok resp → resp.model_used ≠ none) := by
  have main : st.ACTIVE_MODEL_NAME = none ↔ st.ACTIVE_MODEL_PIPE = none := by
    induction h with
    | init => simp [initialState]
    | step hr hs ih => exact step_preserves_sync hs ih
  refine ⟨main, ?_⟩
  intro features resp hok
  cases hP : st.ACTIVE_MODEL_PIPE with
  | none => simp [predict, hP] at hok
  | some pipe =>
    cases hpr : pipe.predictFn [features.dict] with
    | nil => simp [predict, hP, hpr] at hok
    | cons p rest =>
      have heval : (predict features st).1 =
          Except.ok { prediction := p, model_used := st.ACTIVE_MODEL_NAME } := by
        simp [predict, hP, hpr]
      rw [heval] at hok
      injection hok with hok
      intro hnull
      rw [← hok] at hnull
      have hname : st.ACTIVE_MODEL_NAME = none := hnull
      have hpipe : st.ACTIVE_MODEL_PIPE = none := main.mp hname
      rw [hP] at hpipe
      exact Option.noConfusion hpipe

/-- C9 witness: the invariant instantiated at the post-startup state
reached from the initial state. -/
theorem C9_witness :
    (((startup_event fsBoth initialState).2).ACTIVE_MODEL_NAME = none ↔
      ((startup_event fsBoth initialState).2).ACTIVE_MODEL_PIPE = none) ∧
    (∀ (features : PenguinFeatures) (resp : PredictResponse),
      (predict features (startup_event fsBoth initialState).2).1 = Except.ok resp →
      resp.model_used ≠ none) :=
  C9_name_pipe_in_sync (startup_event fsBoth initialState).2
    (Reachable.step Reachable.init (Step.startup fsBoth initialState))

/-- C10: no endpoint mutates the loaded registry: `home`, `list_models`
and `predict` leave the whole state untouched, and `select_model` leaves
`REGISTRY` unchanged (it can only replace the active name/pipeline). -/
theorem C10_endpoints_frame
    (fs : FileSystem) (req : SelectModelRequest)
    (features : PenguinFeatures) (st : ServerState) :
    (home st).2 = st ∧
    (list_models st).2 = st ∧
    ((select_model fs req st).2).REGISTRY = st.REGISTRY ∧
    (predict features st).2 = st := by
  refine ⟨rfl, ?_, ?_, predict_preserves_state features st⟩
  · cases hR : st.REGISTRY <;> simp [list_models, hR]
  · rcases select_model_cases fs req st with heq | heq
    · rw [heq]
    · rw [heq]
      exact set_active_model_registry fs req.model_name st
